import Mathlib

/-!
Verification development for the satellite thermal fusion pipeline
(`satellite_fusion_pipeline.py`).

The source's core is embedded shallowly:
- a `Grid` models an `xarray.DataArray` carrying georeferencing (CRS,
  resolution) and pixel values; a pixel is `Option ℚ`, with `none` playing
  the role of the NaN no-data sentinel;
- `reproject` models the external Raster I/O collaborator's
  `rio.reproject(dst_crs, resolution, resampling)`: the numeric resampling
  itself is performed by rasterio (out of scope per the design), so the
  embedding records its effect on the grid's georeferencing (CRS,
  resolution, resampling kernel applied) and carries the pixel data through;
- `_cloud_fraction`, `_resample_to_target`, `_fuse` and the per-scene body
  of `run_pipeline` (`processScene`) are translated statement by statement
  from the source;
- `xr.concat(arrays, dim="time").mean(dim="time")` is the per-pixel
  arithmetic mean that skips NaN (xarray's default `skipna=True` for float
  data), and a pixel that is NaN in every input is NaN in the output;
  `fusePixel` is exactly that reduction on one pixel column.
-/

namespace SatFusion

/-- Resampling kernels used by the source (`rasterio.enums.Resampling`). -/
inductive Kernel
  | cubic
  | average
  | nearest
deriving DecidableEq, Repr

/-- A raster grid: CRS, cell resolution, the kernel of the last reprojection
(`none` for a grid still on its native grid), and pixel rows; a pixel is
`none` when it is the no-data sentinel (NaN). -/
structure Grid where
  crs : String
  resolution : Int
  resampling : Option Kernel
  data : List (List (Option ℚ))
deriving DecidableEq, Repr

/-- `g.rio.reproject(dst_crs=..., resolution=..., resampling=...)`:
the external Raster I/O operation, modelled on its georeferencing effect. -/
def reproject (g : Grid) (dst_crs : String) (resolution : Int) (k : Kernel) : Grid :=
  { crs := dst_crs, resolution := resolution, resampling := some k, data := g.data }

/-- A `Scene` after its lazy loaders have materialised: `lst` is the cached
data band (`self._lst`, what `lst()` returns), `qa` the optional quality
band values (`self._qa`). -/
structure Scene where
  sensor : String
  lst : Grid
  qa : Option (List (List Int))
deriving DecidableEq, Repr

/-- The merged configuration record (`cfg` dict). `sr_model = ""` models a
falsy `cfg.get("sr_model")` (Python `None` or empty string). -/
structure Config where
  target_resolution : Int
  ecostress_resample : String
  pansharpen : Bool
  sr_model : String
  cloud_mask : Bool
  max_cloud : ℚ
deriving DecidableEq, Repr

/-- `_cloud_fraction(scene)`: 0.0 if there is no QA band, otherwise
`float((qa != 0).mean()) * 100.0` — the percentage of QA pixels whose
quality value is non-zero. -/
def _cloud_fraction (scene : Scene) : ℚ :=
  match scene.qa with
  | none => 0
  | some qa =>
    let px := qa.flatten
    ((px.countP (fun v => v ≠ 0) : ℚ) / (px.length : ℚ)) * 100

/-- `xr.where(qa == 0, lst, np.nan)`: per-pixel, keep the data value where
the quality value is 0, else the no-data sentinel. -/
def apply_pixel_mask (lst : List (List (Option ℚ))) (qa : List (List Int)) :
    List (List (Option ℚ)) :=
  List.zipWith (fun lr qr => List.zipWith (fun v q => if q = 0 then v else none) lr qr) lst qa

/-- `_resample_to_target(scene, cfg)`, branch for branch:
ECOSTRESS at target 30 m reprojects with cubic/average; the Landsat
pansharpen branch is a `pass` (no effect); SLSTR/MODIS at target 30 m with
a truthy `sr_model` reprojects with nearest; every other case returns the
scene's band at its native grid. -/
def _resample_to_target (scene : Scene) (cfg : Config) : Grid :=
  let res := cfg.target_resolution
  if scene.sensor = "ECOSTRESS" ∧ res = 30 then
    let kernel := if cfg.ecostress_resample = "cubic" then Kernel.cubic else Kernel.average
    reproject scene.lst "EPSG:32612" res kernel
  else if (scene.sensor = "SLSTR" ∨ scene.sensor = "MODIS") ∧ res = 30 ∧ cfg.sr_model ≠ "" then
    reproject scene.lst "EPSG:32612" res Kernel.nearest
  else
    scene.lst

/-- Error raised by `_fuse` on an empty input
(`RuntimeError("No arrays provided for fusion.")` in the source; the design
document names this role `EmptyInputError`). -/
inductive FusionError
  | emptyInput
deriving DecidableEq, Repr

/-- The time-dim mean at one pixel: the NaN-skipping mean of the values the
inputs hold there; `none` exactly when every input is no-data there. -/
def fusePixel (vs : List (Option ℚ)) : Option ℚ :=
  if vs.reduceOption.isEmpty then none
  else some (vs.reduceOption.sum / (vs.reduceOption.length : ℚ))

/-- Pixel accessor: value of grid `g` at row `i`, column `j` (out of range
reads as no-data, matching xarray's outer-join alignment fill). -/
def pix (g : Grid) (i j : Nat) : Option ℚ :=
  (g.data.getD i []).getD j none

/-- The data of `xr.concat(arrays, dim="time").mean(dim="time")`, laid out
on the shape of the (aligned) inputs, taken from `proto`. -/
def fuseData (arrays : List Grid) (proto : Grid) : List (List (Option ℚ)) :=
  (List.range proto.data.length).map (fun i =>
    (List.range ((proto.data.getD i []).length)).map (fun j =>
      fusePixel (arrays.map (fun a => pix a i j))))

/-- `_fuse(arrays)`: raises on empty input, else the per-pixel NaN-skipping
mean across the inputs. -/
def _fuse (arrays : List Grid) : Except FusionError Grid :=
  match arrays with
  | [] => Except.error FusionError.emptyInput
  | g :: _ => Except.ok { g with data := fuseData arrays g }

/-- `True` iff `_fuse` returned a grid rather than raising. -/
def fuseReturnsGrid (arrays : List Grid) : Bool :=
  match _fuse arrays with
  | Except.ok _ => true
  | Except.error _ => false

/-- The body of `run_pipeline`'s per-scene loop: cloud filtering (when
enabled and a QA band exists), the `sc._lst` override with the masked band,
then `_resample_to_target`. `none` means the scene was dropped
(`continue`); `some (sc2, g)` means the (possibly updated) handle `sc2` and
its normalized grid `g` were kept. -/
def processScene (cfg : Config) (sc : Scene) : Option (Scene × Grid) :=
  if cfg.cloud_mask then
    match sc.qa with
    | some q =>
      if _cloud_fraction sc > cfg.max_cloud then none
      else
        let sc2 : Scene := { sc with lst := { sc.lst with data := apply_pixel_mask sc.lst.data q } }
        some (sc2, _resample_to_target sc2 cfg)
    | none => some (sc, _resample_to_target sc cfg)
  else some (sc, _resample_to_target sc cfg)

/-- `valid_arrays` as assembled by `run_pipeline` from the discovered
scenes: the normalized grids of the kept scenes, in order. -/
def fusionBatch (cfg : Config) (scenes : List Scene) : List Grid :=
  (scenes.filterMap (processScene cfg)).map Prod.snd

/-- `run_pipeline` up to the fused result (the export to disk is external
Raster I/O); `scenes` stands for `_discover_scenes`' output. -/
def run_pipeline (cfg : Config) (scenes : List Scene) : Except FusionError Grid :=
  _fuse (fusionBatch cfg scenes)

/-- Two grids sit on the same target grid: same CRS and same resolution. -/
def aligned (a b : Grid) : Prop :=
  a.crs = b.crs ∧ a.resolution = b.resolution

instance (a b : Grid) : Decidable (aligned a b) :=
  inferInstanceAs (Decidable (a.crs = b.crs ∧ a.resolution = b.resolution))

/-! ### Helper lemmas -/

theorem reduceOption_eq_nil_iff_forall {α : Type} (l : List (Option α)) :
    l.reduceOption = [] ↔ ∀ x ∈ l, x = none := by
  induction l with
  | nil => simp
  | cons a t ih =>
    cases a with
    | none => simp [ih]
    | some v => simp

theorem fusePixel_singleton (x : Option ℚ) : fusePixel [x] = x := by
  cases x with
  | none => rfl
  | some v => simp [fusePixel]

theorem fusePixel_pair_comm (a b : Option ℚ) : fusePixel [a, b] = fusePixel [b, a] := by
  cases a <;> cases b <;> simp [fusePixel, add_comm]

theorem fusePixel_eq_none_iff (vs : List (Option ℚ)) :
    fusePixel vs = none ↔ ∀ x ∈ vs, x = none := by
  rw [← reduceOption_eq_nil_iff_forall]
  unfold fusePixel
  cases h : vs.reduceOption with
  | nil => simp [h]
  | cons a t => simp [h]

theorem range_map_getD {α : Type} (l : List α) (d : α) :
    (List.range l.length).map (fun j => l.getD j d) = l := by
  apply List.ext_getElem
  · simp
  · intro i h1 h2
    simp [List.getD_eq_getElem?_getD, List.getElem?_eq_getElem, h2]

theorem getD_map_range {α : Type} (n : Nat) (f : Nat → α) (d : α) (i : Nat) (h : i < n) :
    ((List.range n).map f).getD i d = f i := by
  rw [List.getD_eq_getElem?_getD]
  simp [List.getElem?_range, h]

theorem length_getD_map {α : Type} (l : List (List α)) (i : Nat) :
    (l.getD i []).length = (l.map List.length).getD i 0 := by
  induction l generalizing i with
  | nil => simp
  | cons a t ih =>
    cases i with
    | zero => rfl
    | succ k => simpa using ih k

theorem getD_zipWith {α β γ : Type} (f : α → β → γ) (l : List α) (q : List β) (i : Nat)
    (d : γ) (d1 : α) (d2 : β) (hl : i < l.length) (hq : i < q.length) :
    (List.zipWith f l q).getD i d = f (l.getD i d1) (q.getD i d2) := by
  induction l generalizing q i with
  | nil => simp at hl
  | cons a t ih =>
    cases q with
    | nil => simp at hq
    | cons b s =>
      cases i with
      | zero => rfl
      | succ k =>
        simp only [List.zipWith_cons_cons, List.getD_cons_succ]
        exact ih s k (by simpa using hl) (by simpa using hq)

theorem fuseData_length (arrays : List Grid) (proto : Grid) :
    (fuseData arrays proto).length = proto.data.length := by
  simp [fuseData]

theorem fuseData_row_length (arrays : List Grid) (proto : Grid) (i : Nat)
    (hi : i < proto.data.length) :
    ((fuseData arrays proto).getD i []).length = (proto.data.getD i []).length := by
  unfold fuseData
  rw [getD_map_range _ _ _ _ hi]
  simp

theorem fuseData_pix (arrays : List Grid) (proto : Grid) (i j : Nat)
    (hi : i < proto.data.length) (hj : j < (proto.data.getD i []).length) :
    ((fuseData arrays proto).getD i []).getD j none
      = fusePixel (arrays.map (fun a => pix a i j)) := by
  unfold fuseData
  rw [getD_map_range _ _ _ _ hi, getD_map_range _ _ _ _ hj]

theorem fuseData_singleton (G : Grid) : fuseData [G] G = G.data := by
  unfold fuseData
  simp only [List.map_cons, List.map_nil, fusePixel_singleton, pix]
  rw [show (fun i => (List.range ((G.data.getD i []).length)).map
        (fun j => (G.data.getD i []).getD j none)) = fun i => G.data.getD i []
      from funext fun i => range_map_getD _ _]
  exact range_map_getD _ _

theorem fuseData_pair_comm (A B : Grid)
    (hshape : A.data.map List.length = B.data.map List.length) :
    fuseData [A, B] A = fuseData [B, A] B := by
  have hlen : A.data.length = B.data.length := by
    have h := congrArg List.length hshape
    simpa using h
  have hrow : ∀ i, (A.data.getD i []).length = (B.data.getD i []).length := by
    intro i
    rw [length_getD_map, length_getD_map, hshape]
  unfold fuseData
  rw [hlen]
  apply List.map_congr_left
  intro i _
  rw [hrow i]
  apply List.map_congr_left
  intro j _
  simp only [List.map_cons, List.map_nil]
  exact fusePixel_pair_comm _ _

/-! ### Claim theorems -/

/-- C2: for every configuration, fusing an empty collection of grids raises
the empty-input error (the source's `RuntimeError("No arrays provided for
fusion.")`, the role the design names `EmptyInputError`) and returns no
grid at all — in particular never a degenerate all-zero grid. -/
theorem c2_fuse_empty_raises :
    _fuse [] = Except.error FusionError.emptyInput ∧ fuseReturnsGrid [] = false :=
  ⟨rfl, rfl⟩

/-- C8: fusing the singleton collection `[G]` under the uniform-mean policy
returns exactly `G`: every valid pixel keeps its value and the no-data
layout is preserved. -/
theorem c8_fuse_singleton_identity (G : Grid) : _fuse [G] = Except.ok G := by
  show Except.ok { G with data := fuseData [G] G } = Except.ok G
  rw [fuseData_singleton]

/-- C9: uniform-mean fusion of two aligned grids is order-independent:
`_fuse [A, B]` and `_fuse [B, A]` agree pixel-for-pixel. -/
theorem c9_fuse_order_independent (A B : Grid) (hcrs : A.crs = B.crs)
    (hres : A.resolution = B.resolution)
    (hshape : A.data.map List.length = B.data.map List.length) :
    (_fuse [A, B]).map Grid.data = (_fuse [B, A]).map Grid.data := by
  show Except.ok (fuseData [A, B] A) = Except.ok (fuseData [B, A] B)
  rw [fuseData_pair_comm A B hshape]

/-- C5: for a non-empty collection of aligned grids, a pixel of the fused
output is no-data exactly when it is no-data in every input; equivalently a
pixel valid in at least one input is non-no-data in the output. -/
theorem c5_nodata_propagation (arrays : List Grid) (g : Grid)
    (hne : arrays ≠ [])
    (hfuse : _fuse arrays = Except.ok g)
    (i j : Nat) (hi : i < g.data.length) (hj : j < (g.data.getD i []).length) :
    pix g i j = none ↔ ∀ a ∈ arrays, pix a i j = none := by
  cases arrays with
  | nil => cases hfuse
  | cons g0 rest =>
    simp only [_fuse] at hfuse
    injection hfuse with hfuse
    subst hfuse
    simp only [pix, fuseData_length] at hi ⊢
    have hi0 : i < g0.data.length := hi
    have hj0 : j < (g0.data.getD i []).length := by
      rw [fuseData_row_length _ _ _ hi0] at hj
      exact hj
    rw [fuseData_pix _ _ _ _ hi0 hj0, fusePixel_eq_none_iff]
    constructor
    · intro h a ha
      exact h _ (List.mem_map_of_mem _ ha)
    · intro h x hx
      obtain ⟨a, ha, rfl⟩ := List.mem_map.mp hx
      exact h a ha

/-- A concrete 2×2 grid on the target grid, with two no-data pixels. -/
def gridA : Grid :=
  { crs := "EPSG:32612", resolution := 30, resampling := none,
    data := [[some 270, none], [none, none]] }

/-- A concrete 2×2 grid aligned with `gridA`, valid except one pixel. -/
def gridB : Grid :=
  { crs := "EPSG:32612", resolution := 30, resampling := none,
    data := [[some 280, some 300], [none, some 5]] }

/-- The uniform-mean fusion of `gridA` and `gridB`, written out. -/
def gridAB : Grid :=
  { crs := "EPSG:32612", resolution := 30, resampling := none,
    data := [[some 275, some 300], [none, some 5]] }

/-- Witness for C9 at the concrete aligned grids `gridA`, `gridB`. -/
theorem c9_fuse_order_independent_witness :
    (_fuse [gridA, gridB]).map Grid.data = (_fuse [gridB, gridA]).map Grid.data :=
  c9_fuse_order_independent gridA gridB rfl rfl rfl

/-- Witness for C5: at pixel (1,0), no-data in both `gridA` and `gridB`,
and indeed no-data in the fused output. -/
theorem c5_nodata_propagation_witness :
    pix gridAB 1 0 = none ↔ ∀ a ∈ [gridA, gridB], pix a 1 0 = none :=
  c5_nodata_propagation [gridA, gridB] gridAB (by decide)
    (by
      norm_num [_fuse, fuseData, fusePixel, pix, gridA, gridB, gridAB, List.range_succ]
      all_goals simp)
    1 0 (by decide) (by decide)

/-- C6: `_cloud_fraction` returns 0 when the scene has no quality band;
otherwise it returns the percentage of quality-band pixels whose quality
value is non-zero, which lies in [0, 100] whenever the quality band has at
least one pixel. -/
theorem c6_cloud_fraction_contract (sc : Scene) :
    (sc.qa = none → _cloud_fraction sc = 0) ∧
    (∀ q, sc.qa = some q → q.flatten ≠ [] →
      _cloud_fraction sc
          = ((q.flatten.countP (fun v => v ≠ 0) : ℚ) / (q.flatten.length : ℚ)) * 100 ∧
        0 ≤ _cloud_fraction sc ∧ _cloud_fraction sc ≤ 100) := by
  constructor
  · intro h
    simp [_cloud_fraction, h]
  · intro q hq hne
    have hcf : _cloud_fraction sc
        = ((q.flatten.countP (fun v => v ≠ 0) : ℚ) / (q.flatten.length : ℚ)) * 100 := by
      simp [_cloud_fraction, hq]
    refine ⟨hcf, ?_, ?_⟩
    · rw [hcf]
      positivity
    · rw [hcf]
      have hlen : 0 < (q.flatten.length : ℚ) := by
        have h0 : q.flatten.length ≠ 0 := fun h => hne (List.length_eq_zero.mp h)
        exact_mod_cast Nat.pos_of_ne_zero h0
      have hle : ((q.flatten.countP (fun v => v ≠ 0) : ℚ)) ≤ (q.flatten.length : ℚ) := by
        exact_mod_cast List.countP_le_length _
      have h1 : ((q.flatten.countP (fun v => v ≠ 0) : ℚ) / (q.flatten.length : ℚ)) ≤ 1 :=
        div_le_one_of_le₀ hle (le_of_lt hlen)
      calc ((q.flatten.countP (fun v => v ≠ 0) : ℚ) / (q.flatten.length : ℚ)) * 100
          ≤ 1 * 100 := by
            exact mul_le_mul_of_nonneg_right h1 (by norm_num)
        _ = 100 := by norm_num

/-- A quality band where one pixel of four is flagged (25% cloud). -/
def qaQuarter : List (List Int) := [[1, 0], [0, 0]]

/-- A concrete scene carrying `qaQuarter` as its quality band. -/
def scQ : Scene := { sensor := "Landsat", lst := gridA, qa := some qaQuarter }

/-- A concrete scene with no quality band. -/
def scNoQa : Scene := { sensor := "Landsat", lst := gridA, qa := none }

/-- Witness for C6 at `scNoQa` (no quality band) and `scQ` (25% flagged). -/
theorem c6_cloud_fraction_contract_witness :
    _cloud_fraction scNoQa = 0 ∧
      (0 ≤ _cloud_fraction scQ ∧ _cloud_fraction scQ ≤ 100) :=
  ⟨(c6_cloud_fraction_contract scNoQa).1 rfl,
   ((c6_cloud_fraction_contract scQ).2 qaQuarter rfl (by decide)).2⟩

/-- C7: pixel masking (`xr.where(qa == 0, lst, nan)`) replaces every pixel
whose quality value is non-zero by the no-data sentinel and passes every
pixel whose quality value is 0 (not flagged) through unchanged. (A scene
with no quality band at all is never masked; see the orchestrator theorem
for C10.) -/
theorem c7_apply_pixel_mask_pointwise (lst : List (List (Option ℚ)))
    (qa : List (List Int)) (i j : Nat)
    (hi : i < lst.length) (hlen : lst.length = qa.length)
    (hj : j < (lst.getD i []).length)
    (hrow : (lst.getD i []).length = (qa.getD i []).length) :
    ((apply_pixel_mask lst qa).getD i []).getD j none
      = if (qa.getD i []).getD j 0 = 0 then (lst.getD i []).getD j none else none := by
  unfold apply_pixel_mask
  rw [getD_zipWith _ lst qa i [] [] [] hi (by rw [← hlen]; exact hi)]
  rw [getD_zipWith _ _ _ j none none 0 hj (by rw [← hrow]; exact hj)]

/-- Witness for C7: a flagged pixel (quality 3) becomes no-data. -/
theorem c7_apply_pixel_mask_pointwise_witness :
    ((apply_pixel_mask [[some 270, some 280]] [[0, 3]]).getD 0 []).getD 1 none
      = if (([[(0 : Int), 3]].getD 0 []).getD 1 0 = 0)
          then (([[some (270 : ℚ), some 280]].getD 0 []).getD 1 none) else none :=
  c7_apply_pixel_mask_pointwise [[some 270, some 280]] [[0, 3]] 0 1
    (by decide) (by decide) (by decide) (by decide)

/-- C10: while cloud masking is enabled, a kept scene with a quality band
has its cached data grid (`sc._lst`, what the `lst()` accessor returns from
then on) overwritten with the masked grid before resampling, and its
normalized grid is computed from that overwritten handle; a scene with no
quality band undergoes no cloud-fraction check and no masking at all and is
always kept, its handle unchanged. -/
theorem c10_mask_override (cfg : Config) (sc : Scene) :
    (∀ q, cfg.cloud_mask = true → sc.qa = some q →
      ∀ sc2 g, processScene cfg sc = some (sc2, g) →
        sc2 = { sc with lst := { sc.lst with data := apply_pixel_mask sc.lst.data q } } ∧
          g = _resample_to_target sc2 cfg) ∧
    (sc.qa = none → processScene cfg sc = some (sc, _resample_to_target sc cfg)) := by
  constructor
  · intro q hmask hqa sc2 g h
    simp only [processScene, hmask, hqa, if_true] at h
    split at h
    · exact Option.noConfusion h
    · simp only [Option.some.injEq, Prod.mk.injEq] at h
      obtain ⟨h1, h2⟩ := h
      refine ⟨?_, by rw [← h1]; exact h2.symm⟩
      rw [← h1, hqa]
  · intro hqa
    by_cases hmask : cfg.cloud_mask
    · simp [processScene, hmask, hqa]
    · simp [processScene, hmask]

/-- A configuration that keeps scenes up to 30% cloud. -/
def cfgKeep : Config :=
  { target_resolution := 30, ecostress_resample := "area", pansharpen := false,
    sr_model := "", cloud_mask := true, max_cloud := 30 }

/-- The handle `scQ` after `run_pipeline`'s mask override: every pixel of
`gridA` flagged by `qaQuarter` (or already no-data) is no-data. -/
def scQMasked : Scene :=
  { sensor := "Landsat",
    lst := { crs := "EPSG:32612", resolution := 30, resampling := none,
             data := [[none, none], [none, none]] },
    qa := some qaQuarter }

/-- Witness for C10: processing `scQ` (25% cloud, threshold 30) overwrites
the handle with the masked grid and resamples from it. -/
theorem c10_mask_override_witness :
    scQMasked
        = { scQ with lst := { scQ.lst with data := apply_pixel_mask scQ.lst.data qaQuarter } } ∧
      scQMasked.lst = _resample_to_target scQMasked cfgKeep :=
  (c10_mask_override cfgKeep scQ).1 qaQuarter rfl rfl scQMasked scQMasked.lst
    (by
      norm_num [processScene, _cloud_fraction, apply_pixel_mask, _resample_to_target,
        cfgKeep, scQ, scQMasked, qaQuarter, gridA]
      all_goals decide)

/-- A configuration with cloud masking disabled (YAML override
`cloud_mask: false`). -/
def cfgNoMask : Config :=
  { target_resolution := 30, ecostress_resample := "area", pansharpen := false,
    sr_model := "", cloud_mask := false, max_cloud := 20 }

/-- A fully cloudy scene: its single quality pixel is flagged, so its cloud
fraction is 100%. -/
def scCloudy : Scene :=
  { sensor := "Landsat",
    lst := { crs := "EPSG:32612", resolution := 30, resampling := none, data := [[some 270]] },
    qa := some [[1]] }

/-- C3 counterexample: with cloud masking disabled, a scene whose cloud
fraction (100) exceeds `max_cloud` (20) is kept anyway, so "kept iff
`cloud_fraction(scene) <= max_cloud`" is false as stated. -/
theorem c3_counterexample :
    (processScene cfgNoMask scCloudy).isSome = true ∧
      ¬ _cloud_fraction scCloudy ≤ cfgNoMask.max_cloud :=
  ⟨rfl, by norm_num [_cloud_fraction, scCloudy, cfgNoMask]⟩

/-- C3 (amended): when cloud masking is enabled and the scene has a quality
band, the orchestrator keeps the scene iff its cloud fraction is at most
`max_cloud`; a kept scene is pixel-masked before normalization; a dropped
scene contributes nothing to the fusion input. -/
theorem c3_keep_rule (cfg : Config) (sc : Scene) (q : List (List Int))
    (hmask : cfg.cloud_mask = true) (hqa : sc.qa = some q) :
    ((processScene cfg sc).isSome = true ↔ _cloud_fraction sc ≤ cfg.max_cloud) ∧
    (∀ sc2 g, processScene cfg sc = some (sc2, g) →
        sc2.lst.data = apply_pixel_mask sc.lst.data q) ∧
    (processScene cfg sc = none →
      ∀ scenes, run_pipeline cfg (sc :: scenes) = run_pipeline cfg scenes) := by
  have hbody : processScene cfg sc
      = if _cloud_fraction sc > cfg.max_cloud then none
        else some ({ sc with lst := { sc.lst with data := apply_pixel_mask sc.lst.data q } },
          _resample_to_target
            { sc with lst := { sc.lst with data := apply_pixel_mask sc.lst.data q } } cfg) := by
    simp [processScene, hmask, hqa]
  by_cases hcf : _cloud_fraction sc > cfg.max_cloud
  · rw [hbody, if_pos hcf]
    refine ⟨iff_of_false (by simp) (not_le.mpr hcf), ?_, ?_⟩
    · intro sc2 g h
      exact Option.noConfusion h
    · intro _ scenes
      have hdrop : processScene cfg sc = none := by rw [hbody, if_pos hcf]
      simp [run_pipeline, fusionBatch, List.filterMap_cons, hdrop]
  · rw [hbody, if_neg hcf]
    refine ⟨iff_of_true rfl (not_lt.mp hcf), ?_, ?_⟩
    · intro sc2 g h
      simp only [Option.some.injEq, Prod.mk.injEq] at h
      obtain ⟨h1, _⟩ := h
      subst h1
      rfl
    · intro h
      exact Option.noConfusion h

/-- Witness for C3 (amended) at `cfgKeep` and the 25%-cloud scene `scQ`. -/
theorem c3_keep_rule_witness :
    (processScene cfgKeep scQ).isSome = true ↔ _cloud_fraction scQ ≤ cfgKeep.max_cloud :=
  (c3_keep_rule cfgKeep scQ qaQuarter rfl rfl).1

/-- A scene of the much-coarser SLSTR class, on its native ~1 km grid. -/
def scSLSTR : Scene :=
  { sensor := "SLSTR",
    lst := { crs := "EPSG:4326", resolution := 1000, resampling := none, data := [[some 270]] },
    qa := none }

/-- A configuration with a 30 m target and no super-resolution model
configured (`sr_model` falsy). -/
def cfgNoSR : Config :=
  { target_resolution := 30, ecostress_resample := "area", pansharpen := false,
    sr_model := "", cloud_mask := true, max_cloud := 20 }

/-- A configuration with a 30 m target and a super-resolution model id. -/
def cfgSR : Config :=
  { target_resolution := 30, ecostress_resample := "area", pansharpen := false,
    sr_model := "cnn", cloud_mask := true, max_cloud := 20 }

/-- C4 counterexample: an SLSTR scene normalized to a 30 m target with no
enhancement hook configured comes back at its native grid — not reprojected
at all (resolution 1000, native CRS, no resampling applied), contradicting
"falls back to plain nearest-neighbor reprojection onto the target grid". -/
theorem c4_counterexample :
    scSLSTR.sensor = "SLSTR" ∧ cfgNoSR.target_resolution = 30 ∧ cfgNoSR.sr_model = "" ∧
    _resample_to_target scSLSTR cfgNoSR = scSLSTR.lst ∧
    (_resample_to_target scSLSTR cfgNoSR).crs ≠ "EPSG:32612" ∧
    (_resample_to_target scSLSTR cfgNoSR).resolution ≠ 30 ∧
    (_resample_to_target scSLSTR cfgNoSR).resampling = none := by
  decide

/-- C4 (amended): for an SLSTR/MODIS scene at a 30 m target, when a
super-resolution identifier IS configured the normalizer reprojects with
plain nearest-neighbor onto the target grid (the hook itself is an
unimplemented TODO); when no identifier is configured it returns the
scene's band at its native, un-reprojected grid. -/
theorem c4_sr_model_paths (sc : Scene) (cfg : Config)
    (hs : sc.sensor = "SLSTR" ∨ sc.sensor = "MODIS")
    (ht : cfg.target_resolution = 30) :
    (cfg.sr_model ≠ "" →
      _resample_to_target sc cfg = reproject sc.lst "EPSG:32612" 30 Kernel.nearest) ∧
    (cfg.sr_model = "" → _resample_to_target sc cfg = sc.lst) := by
  have hne : ¬ (sc.sensor = "ECOSTRESS" ∧ cfg.target_resolution = 30) := by
    rcases hs with h | h <;> simp [h]
  constructor
  · intro hsr
    simp only [_resample_to_target]
    rw [if_neg hne, if_pos ⟨hs, ht, hsr⟩, ht]
  · intro hsr
    have hne2 : ¬ ((sc.sensor = "SLSTR" ∨ sc.sensor = "MODIS")
        ∧ cfg.target_resolution = 30 ∧ cfg.sr_model ≠ "") := by
      simp [hsr]
    simp only [_resample_to_target]
    rw [if_neg hne, if_neg hne2]

/-- Witness for C4 (amended): `scSLSTR` with a model id reprojects nearest
to the target grid; without one it stays on its native grid. -/
theorem c4_sr_model_paths_witness :
    _resample_to_target scSLSTR cfgSR = reproject scSLSTR.lst "EPSG:32612" 30 Kernel.nearest ∧
      _resample_to_target scSLSTR cfgNoSR = scSLSTR.lst :=
  ⟨(c4_sr_model_paths scSLSTR cfgSR (Or.inl rfl) rfl).1 (by decide),
   (c4_sr_model_paths scSLSTR cfgNoSR (Or.inl rfl) rfl).2 rfl⟩

theorem processScene_spec (cfg : Config) (sc sc2 : Scene) (g : Grid)
    (h : processScene cfg sc = some (sc2, g)) :
    sc2.sensor = sc.sensor ∧ g = _resample_to_target sc2 cfg := by
  unfold processScene at h
  split at h
  · split at h
    · split at h
      · exact Option.noConfusion h
      · simp only [Option.some.injEq, Prod.mk.injEq] at h
        obtain ⟨h1, h2⟩ := h
        subst h1
        exact ⟨rfl, h2.symm⟩
    · simp only [Option.some.injEq, Prod.mk.injEq] at h
      obtain ⟨h1, h2⟩ := h
      subst h1
      exact ⟨rfl, h2.symm⟩
  · simp only [Option.some.injEq, Prod.mk.injEq] at h
    obtain ⟨h1, h2⟩ := h
    subst h1
    exact ⟨rfl, h2.symm⟩

theorem resample_hits_target (sc : Scene) (cfg : Config)
    (ht : cfg.target_resolution = 30)
    (hs : sc.sensor = "ECOSTRESS" ∨
          ((sc.sensor = "SLSTR" ∨ sc.sensor = "MODIS") ∧ cfg.sr_model ≠ "")) :
    (_resample_to_target sc cfg).crs = "EPSG:32612" ∧
      (_resample_to_target sc cfg).resolution = 30 := by
  simp only [_resample_to_target]
  rcases hs with h | ⟨h, hsr⟩
  · rw [if_pos ⟨h, ht⟩]
    exact ⟨rfl, by simp [reproject, ht]⟩
  · have hne : ¬ (sc.sensor = "ECOSTRESS" ∧ cfg.target_resolution = 30) := by
      rcases h with h | h <;> simp [h]
    rw [if_neg hne, if_pos ⟨h, ht, hsr⟩]
    exact ⟨rfl, by simp [reproject, ht]⟩

/-- An ECOSTRESS scene on its native ~70 m grid. -/
def scEco : Scene :=
  { sensor := "ECOSTRESS",
    lst := { crs := "EPSG:4326", resolution := 70, resampling := none, data := [[some 290]] },
    qa := none }

/-- A Landsat scene on its native grid (native CRS differs from the
pipeline's target CRS). -/
def scLandsat : Scene :=
  { sensor := "Landsat",
    lst := { crs := "EPSG:4326", resolution := 30, resampling := none, data := [[some 291]] },
    qa := none }

/-- C1 counterexample: in a run over an ECOSTRESS scene and a Landsat scene
(30 m target, default options), the batch handed to the Fusion Engine holds
the reprojected ECOSTRESS grid next to the Landsat grid still on its native
CRS — the grids do NOT all share the same CRS and resolution. -/
theorem c1_counterexample :
    fusionBatch cfgNoSR [scEco, scLandsat]
        = [reproject scEco.lst "EPSG:32612" 30 Kernel.average, scLandsat.lst] ∧
      ¬ aligned (reproject scEco.lst "EPSG:32612" 30 Kernel.average) scLandsat.lst := by
  decide

/-- C1 (amended): the batch reaching the Fusion Engine is uniformly on the
target grid only when every discovered scene takes a reprojecting path of
`_resample_to_target` — i.e. every scene is ECOSTRESS at a 30 m target, or
SLSTR/MODIS at a 30 m target with a super-resolution model configured; the
normalizer does not establish alignment for other sensor classes or
configurations (they come back on their native grids). -/
theorem c1_alignment_amended (cfg : Config) (scenes : List Scene)
    (ht : cfg.target_resolution = 30)
    (hs : ∀ sc ∈ scenes, sc.sensor = "ECOSTRESS" ∨
          ((sc.sensor = "SLSTR" ∨ sc.sensor = "MODIS") ∧ cfg.sr_model ≠ "")) :
    ∀ g1 ∈ fusionBatch cfg scenes, ∀ g2 ∈ fusionBatch cfg scenes, aligned g1 g2 := by
  have key : ∀ g ∈ fusionBatch cfg scenes, g.crs = "EPSG:32612" ∧ g.resolution = 30 := by
    intro g hg
    unfold fusionBatch at hg
    obtain ⟨p, hp, rfl⟩ := List.mem_map.mp hg
    obtain ⟨sc, hsc, hps⟩ := List.mem_filterMap.mp hp
    obtain ⟨sc2, g2⟩ := p
    have hspec := processScene_spec cfg sc sc2 g2 hps
    simp only at hspec ⊢
    rw [hspec.2]
    apply resample_hits_target sc2 cfg ht
    rw [hspec.1]
    exact hs sc hsc
  intro g1 h1 g2 h2
  obtain ⟨hc1, hr1⟩ := key g1 h1
  obtain ⟨hc2, hr2⟩ := key g2 h2
  exact ⟨by rw [hc1, hc2], by rw [hr1, hr2]⟩

/-- Witness for C1 (amended): a single-ECOSTRESS run yields a batch whose
members (here the one reprojected grid, twice) are aligned. -/
theorem c1_alignment_amended_witness :
    aligned (reproject scEco.lst "EPSG:32612" 30 Kernel.average)
      (reproject scEco.lst "EPSG:32612" 30 Kernel.average) :=
  c1_alignment_amended cfgNoSR [scEco] rfl (by decide)
    (reproject scEco.lst "EPSG:32612" 30 Kernel.average) (by decide)
    (reproject scEco.lst "EPSG:32612" 30 Kernel.average) (by decide)

end SatFusion
